import Mathlib

/-!
Verification of the TimeClock shift-lifecycle core.

Shallow embedding of `core/models.py`, `core/services.py`, `core/forms.py`
and `core/admin.py` of the timeclock-app repository.

Modelling conventions:
- timestamps (`DateTimeField`) are `Int` seconds since an epoch, in the single
  server time zone; `null` timestamps are `Option Int`;
- calendar dates (`DateField`) are `Int` day numbers; a `TimeField`
  (time of day) is an `Int` number of seconds into the day, so
  `datetime.combine(day, t)` is `day * 86400 + t`;
- database tables are Lean lists; the primary key of a row is its list index,
  and the Django default `.first()` ordering (ascending pk) is the list order;
- Python `str(value)` applied to a timestamp is `toString` on the `Int`, and
  `str(None)` is the string of the word None;
- each call to the wall clock (`timezone.localdate`, `timezone.localtime`,
  `timezone.now`) is an explicit parameter of the operation, one parameter
  per call site, in source order.
-/

namespace Timeclock

/-- `WorkShift.Status` text choices from `core/models.py`. -/
inductive Status where
  | OPEN
  | CLOSED
  | EDITED
  | FLAGGED
  deriving DecidableEq

/-- `TimeclockPolicy` singleton record (`core/models.py`).
Grace minutes are `PositiveIntegerField`s, hence `Nat`. -/
structure TimeclockPolicy where
  strict_schedule_enforced : Bool
  allow_unscheduled_clock_in_when_not_strict : Bool
  grace_minutes_before_start : Nat
  grace_minutes_after_start : Nat
  allow_admin_time_edits : Bool
  require_admin_edit_reason : Bool
  deriving DecidableEq

/-- `ScheduledShift` row (`core/models.py`): employee, date, start/end
time-of-day, cancellation flag.  `notes` is irrelevant to the claims and
omitted from the row (free text with no behavior). -/
structure ScheduledShift where
  employee : Nat
  date : Int
  start_time : Int
  end_time : Int
  is_canceled : Bool
  deriving DecidableEq

/-- `WorkShift` row (`core/models.py`).  `scheduled_shift` is an optional
foreign key, modelled as the index of the `ScheduledShift` row. -/
structure WorkShift where
  employee : Nat
  scheduled_shift : Option Nat
  clock_in : Int
  clock_out : Option Int
  status : Status
  edited_by : Option Nat
  edit_reason : String
  deriving DecidableEq

/-- `MealBreak` row (`core/models.py`): `shift` is the index of the owning
`WorkShift` row. -/
structure MealBreak where
  shift : Nat
  start_time : Int
  end_time : Option Int
  deriving DecidableEq

/-- `ShiftEditLog` row (`core/models.py`): one `(field_name, old_value,
new_value)` triple per row, plus editor and reason. -/
structure ShiftEditLog where
  work_shift : Nat
  edited_by : Nat
  reason : String
  field_name : String
  old_value : String
  new_value : String
  deriving DecidableEq

/-- `WorkShift.is_open`: a shift is open when `clock_out` is null. -/
def WorkShift.is_open (s : WorkShift) : Bool :=
  s.clock_out.isNone

/-- `WorkShift.total_seconds`: `clock_out - clock_in`, or 0 if open
(`core/models.py`). -/
def WorkShift.total_seconds (s : WorkShift) : Int :=
  match s.clock_out with
  | none => 0
  | some out => out - s.clock_in

/-- `WorkShift.break_seconds`: sum of `end_time - start_time` over the
breaks of the shift that have an `end_time`; open breaks contribute nothing
(`core/models.py`).  The related breaks of the shift are passed as a list. -/
def break_seconds (breaks : List MealBreak) : Int :=
  breaks.foldl
    (fun acc b =>
      match b.end_time with
      | none => acc
      | some e => acc + (e - b.start_time))
    0

/-- `WorkShift.worked_seconds` (`core/models.py`): 0 when
`total_seconds ≤ 0`, otherwise `max 0 (total - break_seconds)`. -/
def worked_seconds (s : WorkShift) (breaks : List MealBreak) : Int :=
  let total := s.total_seconds
  if total ≤ 0 then 0
  else max 0 (total - break_seconds breaks)

/-- `MealBreak.duration_seconds` (`core/models.py`). -/
def MealBreak.duration_seconds (b : MealBreak) : Int :=
  match b.end_time with
  | none => 0
  | some e => e - b.start_time

/-- The persistent state the service layer reads and writes: the policy
singleton and the ScheduledShift, WorkShift and MealBreak tables.
ShiftEditLog rows are written only by the admin edit flow. -/
structure DB where
  policy : TimeclockPolicy
  schedules : List ScheduledShift
  shifts : List WorkShift
  breaks : List MealBreak
  logs : List ShiftEditLog
  deriving DecidableEq

/-- `WorkShift.objects.filter(employee=employee, clock_out__isnull=True).exists()`
(`core/services.py`, `clock_in`). -/
def hasOpenShift (shifts : List WorkShift) (employee : Nat) : Bool :=
  shifts.any (fun s => s.employee == employee && s.clock_out.isNone)

/-- `get_open_shift` (`core/services.py`): first WorkShift of the employee
with null `clock_out`, as the index of that row (`.first()` in pk order). -/
def openShiftIdx (shifts : List WorkShift) (employee : Nat) : Option Nat :=
  shifts.findIdx? (fun s => s.employee == employee && s.clock_out.isNone)

/-- `get_open_break` (`core/services.py`): first MealBreak of the given
shift with null `end_time`, as the index of that row. -/
def openBreakIdx (breaks : List MealBreak) (shiftIdx : Nat) : Option Nat :=
  breaks.findIdx? (fun b => b.shift == shiftIdx && b.end_time.isNone)

/-- `ScheduledShift.objects.filter(employee=employee, date=today,
is_canceled=False).first()` (`core/services.py`, `clock_in`), returned
together with its row index so the created WorkShift can link to it. -/
def findSchedule (schedules : List ScheduledShift) (employee : Nat)
    (today : Int) : Option (Nat × ScheduledShift) :=
  schedules.enum.find?
    (fun p => p.2.employee == employee && p.2.date == today && !p.2.is_canceled)

/-- `timezone.make_aware(datetime.combine(today, start_time))`: the instant
at `start_time` seconds into day `today`. -/
def combine (day : Int) (timeOfDay : Int) : Int :=
  day * 86400 + timeOfDay

/-- The wall-clock values read by `clock_in` (`core/services.py`), one per
call site in source order: `timezone.localdate()` for `today`,
`timezone.localtime()` for `now` (used in the grace-window comparison), and
`timezone.now()` at `WorkShift.objects.create` for the persisted
`clock_in`.  These are three separate clock calls in the source, so the
embedding takes three separate values. -/
structure ClockInReads where
  today : Int
  now : Int
  create_now : Int
  deriving DecidableEq

/-- `clock_in(employee)` (`core/services.py`).  Returns the new database
state together with the `(success, message)` pair the service returns. -/
def clock_in (db : DB) (employee : Nat) (r : ClockInReads) :
    DB × Bool × String :=
  let policy := db.policy
  if hasOpenShift db.shifts employee then
    (db, false, "You already have an open shift.")
  else
    let scheduled := findSchedule db.schedules employee r.today
    let go : Unit → DB × Bool × String := fun _ =>
      let shift : WorkShift :=
        { employee := employee
          scheduled_shift := scheduled.map (fun p => p.1)
          clock_in := r.create_now
          clock_out := none
          status := Status.OPEN
          edited_by := none
          edit_reason := "" }
      match scheduled with
      | none =>
        let flagged := { shift with status := Status.FLAGGED }
        ({ db with shifts := db.shifts ++ [flagged] }, true,
          "Clocked in. No schedule found so this shift was flagged as unscheduled.")
      | some _ =>
        ({ db with shifts := db.shifts ++ [shift] }, true,
          "Clocked in successfully.")
    if policy.strict_schedule_enforced then
      match scheduled with
      | none => (db, false, "No scheduled shift today. Clock in not allowed.")
      | some (_, sch) =>
        let start_dt := combine r.today sch.start_time
        let early_ok := start_dt - 60 * (policy.grace_minutes_before_start : Int)
        let late_ok := start_dt + 60 * (policy.grace_minutes_after_start : Int)
        if policy.grace_minutes_before_start ≠ 0 ∨
            policy.grace_minutes_after_start ≠ 0 then
          if ¬ (early_ok ≤ r.now ∧ r.now ≤ late_ok) then
            (db, false, "Clock in outside allowed time window.")
          else go ()
        else go ()
    else
      if scheduled.isNone &&
          !policy.allow_unscheduled_clock_in_when_not_strict then
        (db, false, "Unscheduled clock in not allowed by policy.")
      else go ()

/-- `start_meal_break(employee)` (`core/services.py`).  `now` is the value
of the single `timezone.now()` call. -/
def start_meal_break (db : DB) (employee : Nat) (now : Int) :
    DB × Bool × String :=
  match openShiftIdx db.shifts employee with
  | none => (db, false, "You must clock in before starting a meal break.")
  | some idx =>
    match openBreakIdx db.breaks idx with
    | some _ => (db, false, "Meal break already active.")
    | none =>
      ({ db with
          breaks := db.breaks ++ [{ shift := idx, start_time := now, end_time := none }] },
        true, "Meal break started.")

/-- `end_meal_break(employee)` (`core/services.py`).  Sets `end_time` on the
open break; if the break lasted under 30 minutes (1800 seconds), flags the
shift. -/
def end_meal_break (db : DB) (employee : Nat) (now : Int) :
    DB × Bool × String :=
  match openShiftIdx db.shifts employee with
  | none => (db, false, "No open shift.")
  | some idx =>
    match openBreakIdx db.breaks idx with
    | none => (db, false, "No active meal break.")
    | some bidx =>
      match db.breaks[bidx]?, db.shifts[idx]? with
      | some brk, some shift =>
        let brk2 := { brk with end_time := some now }
        let db2 := { db with breaks := db.breaks.set bidx brk2 }
        let duration_seconds := now - brk.start_time
        let min_seconds : Int := 30 * 60
        if duration_seconds < min_seconds then
          ({ db2 with
              shifts := db2.shifts.set idx { shift with status := Status.FLAGGED } },
            true,
            "Meal break ended. Break was under 30 minutes so the shift was flagged.")
        else
          (db2, true, "Meal break ended.")
      | _, _ => (db, false, "No active meal break.")

/-- `clock_out(employee)` (`core/services.py`).  Sets `clock_out = now`;
`OPEN` becomes `CLOSED`, any other status is left unchanged; only the
`clock_out` and `status` fields are saved. -/
def clock_out (db : DB) (employee : Nat) (now : Int) :
    DB × Bool × String :=
  match openShiftIdx db.shifts employee with
  | none => (db, false, "No open shift to clock out from.")
  | some idx =>
    match openBreakIdx db.breaks idx with
    | some _ => (db, false, "End your meal break before clocking out.")
    | none =>
      match db.shifts[idx]? with
      | none => (db, false, "No open shift to clock out from.")
      | some shift =>
        let newStatus :=
          if shift.status = Status.OPEN then Status.CLOSED else shift.status
        ({ db with
            shifts := db.shifts.set idx
              { shift with clock_out := some now, status := newStatus } },
          true, "Clocked out successfully.")

/-- Python `str.strip()` as used by the admin form and `save_model`:
removes leading and trailing whitespace characters.  Written over the
character list of the string so it evaluates by kernel reduction. -/
def pyStrip (s : String) : String :=
  ⟨((s.data.dropWhile Char.isWhitespace).reverse.dropWhile
      Char.isWhitespace).reverse⟩

/-- The data an admin submits through `WorkShiftAdminForm` when editing an
existing WorkShift (`core/forms.py`, `core/admin.py`): the proposed
`clock_in` (a required field), the proposed `clock_out` (nullable), the
proposed `edit_reason` and the proposed `status` (the form exposes the
status field too; the claims concern edits that leave it alone). -/
structure AdminEditProposal where
  clock_in : Int
  clock_out : Option Int
  edit_reason : String
  status : Status
  deriving DecidableEq

/-- `str(value)` for a nullable timestamp: Python renders `None` as the
four-letter word, a datetime via `toString`. -/
def strOptTime (t : Option Int) : String :=
  match t with
  | none => "None"
  | some v => toString v

/-- `WorkShiftAdminForm.clean` (`core/forms.py`) on an existing WorkShift
(`self.instance.pk` set): returns the `ValidationError` message, or `none`
when the form validates.  `old` is the stored row loaded for comparison. -/
def workShiftAdminClean (policy : TimeclockPolicy) (old : WorkShift)
    (p : AdminEditProposal) : Option String :=
  if (match p.clock_out with
      | some co => decide (co ≤ p.clock_in)
      | none => false) then
    some "Clock out must be after clock in."
  else
    let times_changed :=
      old.clock_in ≠ p.clock_in ∨ old.clock_out ≠ p.clock_out
    if times_changed then
      if !policy.allow_admin_time_edits then
        some "Admin time edits are disabled by policy."
      else if policy.require_admin_edit_reason && pyStrip p.edit_reason = "" then
        some "Edit reason is required when changing times."
      else none
    else none

/-- `WorkShiftAdmin.save_model` (`core/admin.py`) with `change=True`:
computes the changed time fields against the stored row, marks the shift
`EDITED` with the editor recorded when any time changed, persists the
object, and appends one ShiftEditLog row per changed field with stringified
old/new values (`reason = obj.edit_reason or "Admin edit"`). -/
def adminSaveModel (db : DB) (shiftIdx : Nat) (old : WorkShift)
    (p : AdminEditProposal) (adminUser : Nat) : DB :=
  let changed_fields : List (String × String × String) :=
    (if old.clock_in ≠ p.clock_in then
      [("clock_in", toString old.clock_in, toString p.clock_in)] else []) ++
    (if old.clock_out ≠ p.clock_out then
      [("clock_out", strOptTime old.clock_out, strOptTime p.clock_out)] else [])
  let obj0 : WorkShift :=
    { old with
        clock_in := p.clock_in
        clock_out := p.clock_out
        edit_reason := p.edit_reason
        status := p.status }
  let obj :=
    if changed_fields.isEmpty then obj0
    else
      { obj0 with
          status := Status.EDITED
          edited_by := some adminUser
          edit_reason := pyStrip p.edit_reason }
  { db with
      shifts := db.shifts.set shiftIdx obj
      logs := db.logs ++ changed_fields.map (fun f =>
        { work_shift := shiftIdx
          edited_by := adminUser
          reason := if obj.edit_reason = "" then "Admin edit" else obj.edit_reason
          field_name := f.1
          old_value := f.2.1
          new_value := f.2.2 }) }

/-- The admin edit flow on an existing WorkShift: Django validates the form
(`WorkShiftAdminForm.clean`); if invalid nothing is persisted, otherwise
`save_model` runs.  Returns the new state and whether the edit was
accepted. -/
def admin_edit (db : DB) (shiftIdx : Nat) (p : AdminEditProposal)
    (adminUser : Nat) : DB × Bool :=
  match db.shifts[shiftIdx]? with
  | none => (db, false)
  | some old =>
    match workShiftAdminClean db.policy old p with
    | some _ => (db, false)
    | none => (adminSaveModel db shiftIdx old p adminUser, true)

/-- A lifecycle operation of the service layer, with the wall-clock values
its source reads as explicit data. -/
inductive Op where
  | clockIn (employee : Nat) (r : ClockInReads)
  | clockOut (employee : Nat) (now : Int)
  | startBreak (employee : Nat) (now : Int)
  | endBreak (employee : Nat) (now : Int)

/-- The state reached by one lifecycle operation. -/
def step (db : DB) (op : Op) : DB :=
  match op with
  | Op.clockIn employee r => (clock_in db employee r).1
  | Op.clockOut employee now => (clock_out db employee now).1
  | Op.startBreak employee now => (start_meal_break db employee now).1
  | Op.endBreak employee now => (end_meal_break db employee now).1

/-- The state reached by a sequence of lifecycle operations. -/
def run (db : DB) (ops : List Op) : DB :=
  ops.foldl step db

/-- Number of WorkShift rows of an employee with null `clock_out`. -/
def openCount (shifts : List WorkShift) (employee : Nat) : Nat :=
  shifts.countP (fun s => s.employee == employee && s.clock_out.isNone)

/-- At most one open WorkShift per employee. -/
def OpenInvariant (db : DB) : Prop :=
  ∀ employee, openCount db.shifts employee ≤ 1

/-! ## Concrete fixtures (used to instantiate the theorems) -/

/-- A policy record with every field supplied positionally:
strict, allow-unscheduled, grace-before, grace-after, allow-admin-edits,
require-edit-reason. -/
def mkPolicy (strict allowUnsched : Bool) (gb ga : Nat)
    (allowEdits requireReason : Bool) : TimeclockPolicy :=
  { strict_schedule_enforced := strict
    allow_unscheduled_clock_in_when_not_strict := allowUnsched
    grace_minutes_before_start := gb
    grace_minutes_after_start := ga
    allow_admin_time_edits := allowEdits
    require_admin_edit_reason := requireReason }

/-- A WorkShift row with no schedule link and no edit data. -/
def mkShiftRow (employee : Nat) (ci : Int) (co : Option Int)
    (st : Status) : WorkShift :=
  { employee := employee
    scheduled_shift := none
    clock_in := ci
    clock_out := co
    status := st
    edited_by := none
    edit_reason := "" }

/-- A database state with no audit logs. -/
def mkDB (pol : TimeclockPolicy) (schedules : List ScheduledShift)
    (shifts : List WorkShift) (breaks : List MealBreak) : DB :=
  { policy := pol
    schedules := schedules
    shifts := shifts
    breaks := breaks
    logs := [] }

/-! ## Helper lemmas -/

theorem break_seconds_eq_sum (bs : List MealBreak) :
    break_seconds bs = (bs.map MealBreak.duration_seconds).sum := by
  suffices h : ∀ (acc : Int),
      bs.foldl
        (fun acc b =>
          match b.end_time with
          | none => acc
          | some e => acc + (e - b.start_time))
        acc = acc + (bs.map MealBreak.duration_seconds).sum by
    simpa [break_seconds] using h 0
  induction bs with
  | nil => intro acc; simp
  | cons b bs ih =>
    intro acc
    cases hbe : b.end_time with
    | none =>
      simp [List.foldl_cons, hbe, ih, MealBreak.duration_seconds]
    | some e =>
      simp [List.foldl_cons, hbe, ih, MealBreak.duration_seconds]
      ring

theorem break_seconds_nonneg (bs : List MealBreak)
    (hwf : ∀ b ∈ bs, ∀ e, b.end_time = some e → b.start_time ≤ e) :
    0 ≤ break_seconds bs := by
  rw [break_seconds_eq_sum]
  apply List.sum_nonneg
  intro x hx
  simp only [List.mem_map] at hx
  obtain ⟨b, hb, rfl⟩ := hx
  cases hbe : b.end_time with
  | none => simp [MealBreak.duration_seconds, hbe]
  | some e =>
    simp only [MealBreak.duration_seconds, hbe]
    have := hwf b hb e hbe
    omega

theorem worked_seconds_nonneg (s : WorkShift) (bs : List MealBreak) :
    0 ≤ worked_seconds s bs := by
  unfold worked_seconds
  dsimp only
  split
  · exact le_refl 0
  · exact le_max_left 0 _

/-! ## C9: worked seconds -/

/-- C9 counterexample: the claimed identity
`workedSeconds = max(0, totalSeconds − breakSeconds)` fails on the code for
a closed shift with a malformed completed break.  Concretely: a shift with
`clock_in = clock_out = 100` (`totalSeconds = 0`) and one completed break
recorded backwards (`start 200`, `end 100`, so `breakSeconds = -100`): the
implemented `worked_seconds` returns `0` (it returns 0 whenever
`total_seconds ≤ 0`), while the claimed formula gives `100`. -/
theorem worked_seconds_formula_cex :
    worked_seconds
        { employee := 1, scheduled_shift := none, clock_in := 100,
          clock_out := some 100, status := Status.CLOSED,
          edited_by := none, edit_reason := "" }
        [{ shift := 0, start_time := 200, end_time := some 100 }] = 0 ∧
      max 0
        (WorkShift.total_seconds
            { employee := 1, scheduled_shift := none, clock_in := 100,
              clock_out := some 100, status := Status.CLOSED,
              edited_by := none, edit_reason := "" } -
          break_seconds [{ shift := 0, start_time := 200, end_time := some 100 }]) =
        100 := by
  constructor
  · rfl
  · rfl

/-- C9 (amended): for every WorkShift whose completed MealBreaks each have
`end_time ≥ start_time` (in particular every closed shift with well-formed
break data), `worked_seconds` equals
`max 0 (total_seconds − break_seconds)`, open breaks contributing nothing;
and on arbitrary (even malformed) data the result is never negative. -/
theorem worked_seconds_eq_clamped_difference (s : WorkShift)
    (bs : List MealBreak)
    (hwf : ∀ b ∈ bs, ∀ e, b.end_time = some e → b.start_time ≤ e) :
    worked_seconds s bs = max 0 (s.total_seconds - break_seconds bs) ∧
      ∀ (s2 : WorkShift) (bs2 : List MealBreak), 0 ≤ worked_seconds s2 bs2 := by
  refine ⟨?_, fun s2 bs2 => worked_seconds_nonneg s2 bs2⟩
  unfold worked_seconds
  dsimp only
  split
  · rename_i htot
    have hb := break_seconds_nonneg bs hwf
    omega
  · rfl

/-- C9 witness: the amended theorem applied to a concrete closed shift
(9:00–17:00 as seconds 32400–61200) with one 30-minute completed break and
one open break. -/
theorem worked_seconds_eq_clamped_difference_witness :
    worked_seconds
        { employee := 1, scheduled_shift := none, clock_in := 32400,
          clock_out := some 61200, status := Status.CLOSED,
          edited_by := none, edit_reason := "" }
        [{ shift := 0, start_time := 43200, end_time := some 45000 },
         { shift := 0, start_time := 50000, end_time := none }] =
      max 0
        (WorkShift.total_seconds
            { employee := 1, scheduled_shift := none, clock_in := 32400,
              clock_out := some 61200, status := Status.CLOSED,
              edited_by := none, edit_reason := "" } -
          break_seconds
            [{ shift := 0, start_time := 43200, end_time := some 45000 },
             { shift := 0, start_time := 50000, end_time := none }]) := by
  have h :=
    worked_seconds_eq_clamped_difference
      { employee := 1, scheduled_shift := none, clock_in := 32400,
        clock_out := some 61200, status := Status.CLOSED,
        edited_by := none, edit_reason := "" }
      [{ shift := 0, start_time := 43200, end_time := some 45000 },
       { shift := 0, start_time := 50000, end_time := none }]
      (by
        intro b hb e he
        simp only [List.mem_cons, List.mem_singleton] at hb
        rcases hb with rfl | rfl | h
        · simp only at he
          injection he with he
          simp only []
          omega
        · simp at he
        · simp at h)
  exact h.1

/-! ## C6: clock-out status transition and frame -/

/-- C6: for every `clock_out` call on an employee with an open WorkShift
and no open MealBreak, the call succeeds, the shift field `clock_out` is set to
`now`, its status becomes `CLOSED` exactly when it was `OPEN` (a `FLAGGED`
or `EDITED` status is left unchanged), and nothing else in the database —
no other field of the shift, no other shift, no breaks, logs, schedules or
policy — is modified. -/
theorem clock_out_closes_open_only (db : DB) (employee : Nat) (now : Int)
    (idx : Nat) (shift : WorkShift)
    (hidx : openShiftIdx db.shifts employee = some idx)
    (hshift : db.shifts[idx]? = some shift)
    (hbrk : openBreakIdx db.breaks idx = none) :
    clock_out db employee now =
      ({ db with
          shifts := db.shifts.set idx
            { shift with
                clock_out := some now
                status :=
                  if shift.status = Status.OPEN then Status.CLOSED
                  else shift.status } },
        true, "Clocked out successfully.") := by
  unfold clock_out
  simp only [hidx, hbrk, hshift]

/-- C6 witness: a FLAGGED open shift is clocked out; `clock_out` is set and
the status stays FLAGGED, not reset to CLOSED. -/
theorem clock_out_closes_open_only_witness :
    clock_out
        (mkDB (mkPolicy false true 0 0 true true) []
          [mkShiftRow 7 100 none Status.FLAGGED] []) 7 500 =
      ({ mkDB (mkPolicy false true 0 0 true true) []
          [mkShiftRow 7 100 none Status.FLAGGED] [] with
          shifts := [{ mkShiftRow 7 100 none Status.FLAGGED with
                        clock_out := some 500, status := Status.FLAGGED }] },
        true, "Clocked out successfully.") := by
  have h :=
    clock_out_closes_open_only
      (mkDB (mkPolicy false true 0 0 true true) []
        [mkShiftRow 7 100 none Status.FLAGGED] []) 7 500 0
      (mkShiftRow 7 100 none Status.FLAGGED)
      (by rfl) (by rfl) (by rfl)
  simpa using h

/-! ## C7: meal-break completion and short-break flagging -/

/-- C7: for every `end_meal_break` call on an employee with an open
WorkShift and an open MealBreak, the break field `end_time` is set to `now`;
when the break duration `now − start_time` is strictly under 1800 seconds
the status of the parent shift is set to FLAGGED regardless of its previous
status and the call succeeds with the message mentioning the flag,
otherwise the call succeeds with the plain message and the shifts table is
untouched (a break of exactly 30 minutes does not flag). -/
theorem end_meal_break_flags_short_breaks (db : DB) (employee : Nat)
    (now : Int) (idx bidx : Nat) (shift : WorkShift) (brk : MealBreak)
    (hidx : openShiftIdx db.shifts employee = some idx)
    (hb : openBreakIdx db.breaks idx = some bidx)
    (hbrk : db.breaks[bidx]? = some brk)
    (hshift : db.shifts[idx]? = some shift) :
    end_meal_break db employee now =
      if now - brk.start_time < 1800 then
        ({ db with
            breaks := db.breaks.set bidx { brk with end_time := some now }
            shifts := db.shifts.set idx { shift with status := Status.FLAGGED } },
          true,
          "Meal break ended. Break was under 30 minutes so the shift was flagged.")
      else
        ({ db with
            breaks := db.breaks.set bidx { brk with end_time := some now } },
          true, "Meal break ended.") := by
  unfold end_meal_break
  simp only [hidx, hb, hbrk, hshift]
  norm_num

/-- C7 witness: a 10-minute break (600 s) flags the shift; the same state
ended at exactly 30 minutes (1800 s) leaves the status alone. -/
theorem end_meal_break_flags_short_breaks_witness :
    end_meal_break
        (mkDB (mkPolicy false true 0 0 true true) []
          [mkShiftRow 7 100 none Status.OPEN]
          [{ shift := 0, start_time := 1000, end_time := none }]) 7 1600 =
      ({ mkDB (mkPolicy false true 0 0 true true) []
          [mkShiftRow 7 100 none Status.OPEN]
          [{ shift := 0, start_time := 1000, end_time := none }] with
          breaks := [{ shift := 0, start_time := 1000, end_time := some 1600 }]
          shifts := [{ mkShiftRow 7 100 none Status.OPEN with
                        status := Status.FLAGGED }] },
        true,
        "Meal break ended. Break was under 30 minutes so the shift was flagged.") ∧
    end_meal_break
        (mkDB (mkPolicy false true 0 0 true true) []
          [mkShiftRow 7 100 none Status.OPEN]
          [{ shift := 0, start_time := 1000, end_time := none }]) 7 2800 =
      ({ mkDB (mkPolicy false true 0 0 true true) []
          [mkShiftRow 7 100 none Status.OPEN]
          [{ shift := 0, start_time := 1000, end_time := none }] with
          breaks := [{ shift := 0, start_time := 1000, end_time := some 2800 }] },
        true, "Meal break ended.") := by
  constructor
  · have h :=
      end_meal_break_flags_short_breaks
        (mkDB (mkPolicy false true 0 0 true true) []
          [mkShiftRow 7 100 none Status.OPEN]
          [{ shift := 0, start_time := 1000, end_time := none }]) 7 1600 0 0
        (mkShiftRow 7 100 none Status.OPEN)
        { shift := 0, start_time := 1000, end_time := none }
        (by rfl) (by rfl) (by rfl) (by rfl)
    simpa using h
  · have h :=
      end_meal_break_flags_short_breaks
        (mkDB (mkPolicy false true 0 0 true true) []
          [mkShiftRow 7 100 none Status.OPEN]
          [{ shift := 0, start_time := 1000, end_time := none }]) 7 2800 0 0
        (mkShiftRow 7 100 none Status.OPEN)
        { shift := 0, start_time := 1000, end_time := none }
        (by rfl) (by rfl) (by rfl) (by rfl)
    simpa using h

/-! ## C2: strict schedule enforcement and grace window -/

/-- C2: for every `clock_in` call that reaches the schedule check (the
employee has no open shift) under `strict_schedule_enforced`:
with no non-canceled ScheduledShift for today the call returns `false`
with the no-scheduled-shift message and mutates nothing; with a schedule
and at least one nonzero grace value the call is rejected with the
outside-window message and no mutation unless
`scheduledStart − graceBefore ≤ now ≤ scheduledStart + graceAfter`, and
succeeds when `now` lies in that window; with both grace values zero no
window check is performed and the call succeeds at any `now`. -/
theorem clock_in_strict_enforcement (db : DB) (employee : Nat)
    (r : ClockInReads)
    (hstrict : db.policy.strict_schedule_enforced = true)
    (hopen : hasOpenShift db.shifts employee = false) :
    (findSchedule db.schedules employee r.today = none →
      clock_in db employee r =
        (db, false, "No scheduled shift today. Clock in not allowed.")) ∧
    (∀ i sch, findSchedule db.schedules employee r.today = some (i, sch) →
      ((db.policy.grace_minutes_before_start ≠ 0 ∨
          db.policy.grace_minutes_after_start ≠ 0) →
        (¬ (combine r.today sch.start_time -
              60 * (db.policy.grace_minutes_before_start : Int) ≤ r.now ∧
            r.now ≤ combine r.today sch.start_time +
              60 * (db.policy.grace_minutes_after_start : Int)) →
          clock_in db employee r =
            (db, false, "Clock in outside allowed time window.")) ∧
        ((combine r.today sch.start_time -
            60 * (db.policy.grace_minutes_before_start : Int) ≤ r.now ∧
          r.now ≤ combine r.today sch.start_time +
            60 * (db.policy.grace_minutes_after_start : Int)) →
          (clock_in db employee r).2.1 = true)) ∧
      ((db.policy.grace_minutes_before_start = 0 ∧
          db.policy.grace_minutes_after_start = 0) →
        (clock_in db employee r).2.1 = true)) := by
  constructor
  · intro hsched
    unfold clock_in
    simp only [hopen, hsched, hstrict, Bool.false_eq_true, if_false, if_true]
  · intro i sch hsched
    refine ⟨fun hgrace => ⟨fun hout => ?_, fun hin => ?_⟩, fun hzero => ?_⟩
    · unfold clock_in
      simp only [hopen, hsched, hstrict, Bool.false_eq_true, if_false, if_true]
      rw [if_pos hgrace, if_pos hout]
    · unfold clock_in
      simp only [hopen, hsched, hstrict, Bool.false_eq_true, if_false, if_true]
      rw [if_pos hgrace, if_neg (by exact fun hc => hc hin)]
    · unfold clock_in
      simp only [hopen, hsched, hstrict, Bool.false_eq_true, if_false, if_true]
      rw [if_neg (by simp [hzero.1, hzero.2])]

/-- C2 witness: strict policy with grace 10/10 and a schedule starting at
second 32400 of day 0.  A clock-in at 40000 (outside the window
[31800, 33000]) is rejected with no mutation; a clock-in at 32700 (inside
the window) succeeds. -/
theorem clock_in_strict_enforcement_witness :
    clock_in
        (mkDB (mkPolicy true true 10 10 true true)
          [{ employee := 7, date := 0, start_time := 32400, end_time := 61200,
             is_canceled := false }] [] []) 7
        { today := 0, now := 40000, create_now := 40000 } =
      (mkDB (mkPolicy true true 10 10 true true)
          [{ employee := 7, date := 0, start_time := 32400, end_time := 61200,
             is_canceled := false }] [] [],
        false, "Clock in outside allowed time window.") ∧
    (clock_in
        (mkDB (mkPolicy true true 10 10 true true)
          [{ employee := 7, date := 0, start_time := 32400, end_time := 61200,
             is_canceled := false }] [] []) 7
        { today := 0, now := 32700, create_now := 32700 }).2.1 = true := by
  constructor
  · have h :=
      clock_in_strict_enforcement
        (mkDB (mkPolicy true true 10 10 true true)
          [{ employee := 7, date := 0, start_time := 32400, end_time := 61200,
             is_canceled := false }] [] []) 7
        { today := 0, now := 40000, create_now := 40000 }
        (by rfl) (by rfl)
    exact ((h.2 0
        { employee := 7, date := 0, start_time := 32400, end_time := 61200,
          is_canceled := false } (by rfl)).1
      (Or.inl (by decide))).1
      (by decide)
  · have h :=
      clock_in_strict_enforcement
        (mkDB (mkPolicy true true 10 10 true true)
          [{ employee := 7, date := 0, start_time := 32400, end_time := 61200,
             is_canceled := false }] [] []) 7
        { today := 0, now := 32700, create_now := 32700 }
        (by rfl) (by rfl)
    exact ((h.2 0
        { employee := 7, date := 0, start_time := 32400, end_time := 61200,
          is_canceled := false } (by rfl)).1
      (Or.inl (by decide))).2
      (by decide)

/-! ## Shape of clock-in outcomes -/

/-- Case analysis of `clock_in`: either the call fails and the state is
untouched, or it succeeds with no prior open shift and appends exactly one
WorkShift — a FLAGGED schedule-less shift (only possible when strict mode
is off) or an OPEN shift linked to the schedule that was found. -/
theorem clock_in_shape (db : DB) (employee : Nat) (r : ClockInReads) :
    ((clock_in db employee r).1 = db ∧ (clock_in db employee r).2.1 = false) ∨
    (hasOpenShift db.shifts employee = false ∧
      ((findSchedule db.schedules employee r.today = none ∧
        db.policy.strict_schedule_enforced = false ∧
        clock_in db employee r =
          ({ db with shifts := db.shifts ++
              [{ employee := employee, scheduled_shift := none,
                 clock_in := r.create_now, clock_out := none,
                 status := Status.FLAGGED, edited_by := none,
                 edit_reason := "" }] }, true,
            "Clocked in. No schedule found so this shift was flagged as unscheduled.")) ∨
       (∃ i sch, findSchedule db.schedules employee r.today = some (i, sch) ∧
        clock_in db employee r =
          ({ db with shifts := db.shifts ++
              [{ employee := employee, scheduled_shift := some i,
                 clock_in := r.create_now, clock_out := none,
                 status := Status.OPEN, edited_by := none,
                 edit_reason := "" }] }, true,
            "Clocked in successfully.")))) := by
  unfold clock_in
  by_cases hopen : hasOpenShift db.shifts employee = true
  · simp [hopen]
  · rw [Bool.not_eq_true] at hopen
    rcases hs : findSchedule db.schedules employee r.today with _ | ⟨i, sch⟩
    · by_cases hstrict : db.policy.strict_schedule_enforced = true
      · simp [hopen, hs, hstrict]
      · rw [Bool.not_eq_true] at hstrict
        by_cases hallow :
            db.policy.allow_unscheduled_clock_in_when_not_strict = true
        · right
          refine ⟨hopen, Or.inl ⟨rfl, hstrict, ?_⟩⟩
          simp [hopen, hs, hstrict, hallow]
        · rw [Bool.not_eq_true] at hallow
          simp [hopen, hs, hstrict, hallow]
    · by_cases hstrict : db.policy.strict_schedule_enforced = true
      · by_cases hgrace : (db.policy.grace_minutes_before_start ≠ 0 ∨
            db.policy.grace_minutes_after_start ≠ 0)
        · by_cases hwin :
              (combine r.today sch.start_time -
                  60 * (db.policy.grace_minutes_before_start : Int) ≤ r.now ∧
                r.now ≤ combine r.today sch.start_time +
                  60 * (db.policy.grace_minutes_after_start : Int))
          · right
            refine ⟨hopen, Or.inr ⟨i, sch, rfl, ?_⟩⟩
            simp only [hopen, hs, hstrict, Bool.false_eq_true, if_false,
              if_true]
            rw [if_pos hgrace, if_neg (by exact fun hc => hc hwin)]
            simp
          · left
            simp only [hopen, hs, hstrict, Bool.false_eq_true, if_false,
              if_true]
            rw [if_pos hgrace, if_pos hwin]
            exact ⟨rfl, rfl⟩
        · right
          refine ⟨hopen, Or.inr ⟨i, sch, rfl, ?_⟩⟩
          simp only [hopen, hs, hstrict, Bool.false_eq_true, if_false,
            if_true]
          rw [if_neg hgrace]
          simp
      · rw [Bool.not_eq_true] at hstrict
        right
        refine ⟨hopen, Or.inr ⟨i, sch, rfl, ?_⟩⟩
        simp [hopen, hs, hstrict]

/-! ## C8: unscheduled clock-in is flagged -/

/-- C8: every successful `clock_in` appends exactly one WorkShift for the
employee; that shift has no schedule link exactly when its status is
FLAGGED (in which case the returned message is the distinct
flagged-as-unscheduled one); a shift with a schedule link is created OPEN;
and under strict mode the created shift always has a schedule link and
status OPEN. -/
theorem clock_in_flags_unscheduled (db : DB) (employee : Nat)
    (r : ClockInReads)
    (hsucc : (clock_in db employee r).2.1 = true) :
    ∃ s, (clock_in db employee r).1.shifts = db.shifts ++ [s] ∧
      s.employee = employee ∧
      s.clock_out = none ∧
      (s.scheduled_shift = none ↔ s.status = Status.FLAGGED) ∧
      (s.scheduled_shift = none →
        (clock_in db employee r).2.2 =
          "Clocked in. No schedule found so this shift was flagged as unscheduled.") ∧
      (s.scheduled_shift ≠ none → s.status = Status.OPEN) ∧
      (db.policy.strict_schedule_enforced = true →
        s.scheduled_shift ≠ none ∧ s.status = Status.OPEN) := by
  rcases clock_in_shape db employee r with ⟨_, hfail⟩ | ⟨_, hcase⟩
  · rw [hsucc] at hfail
    exact absurd hfail (by simp)
  · rcases hcase with ⟨hs, hstrict, heq⟩ | ⟨i, sch, hs, heq⟩
    · refine ⟨_, by rw [heq], rfl, rfl, ?_, ?_, ?_, ?_⟩
      · simp
      · intro _
        rw [heq]
      · intro h
        exact absurd rfl h
      · intro h
        rw [h] at hstrict
        exact absurd hstrict (by simp)
    · refine ⟨_, by rw [heq], rfl, rfl, ?_, ?_, ?_, ?_⟩
      · simp
      · intro h
        exact absurd h (by simp)
      · intro _
        rfl
      · intro _
        exact ⟨by simp, rfl⟩

/-- C8 witness: non-strict policy allowing unscheduled clock-ins, no
schedule: the successful call creates a schedule-less FLAGGED shift. -/
theorem clock_in_flags_unscheduled_witness :
    ∃ s,
      (clock_in (mkDB (mkPolicy false true 0 0 true true) [] [] []) 7
          { today := 0, now := 100, create_now := 100 }).1.shifts =
        [] ++ [s] ∧
      s.employee = 7 ∧
      s.clock_out = none ∧
      (s.scheduled_shift = none ↔ s.status = Status.FLAGGED) ∧
      (s.scheduled_shift = none →
        (clock_in (mkDB (mkPolicy false true 0 0 true true) [] [] []) 7
            { today := 0, now := 100, create_now := 100 }).2.2 =
          "Clocked in. No schedule found so this shift was flagged as unscheduled.") ∧
      (s.scheduled_shift ≠ none → s.status = Status.OPEN) ∧
      ((mkDB (mkPolicy false true 0 0 true true) [] []
          []).policy.strict_schedule_enforced = true →
        s.scheduled_shift ≠ none ∧ s.status = Status.OPEN) := by
  have h :=
    clock_in_flags_unscheduled
      (mkDB (mkPolicy false true 0 0 true true) [] [] []) 7
      { today := 0, now := 100, create_now := 100 } (by rfl)
  simpa [mkDB] using h

/-! ## C3: admin edit validation -/

/-- `WorkShiftAdminForm.clean` validates (returns no error) exactly when
the proposed clock-out is not at-or-before the proposed clock-in, and any
time change is permitted by policy with an acceptable reason. -/
theorem workShiftAdminClean_none_iff (policy : TimeclockPolicy)
    (old : WorkShift) (p : AdminEditProposal) :
    workShiftAdminClean policy old p = none ↔
      (¬ ∃ co, p.clock_out = some co ∧ co ≤ p.clock_in) ∧
      ((old.clock_in ≠ p.clock_in ∨ old.clock_out ≠ p.clock_out) →
        policy.allow_admin_time_edits = true ∧
        (policy.require_admin_edit_reason = true →
          pyStrip p.edit_reason ≠ "")) := by
  obtain ⟨pci, pco, per, pst⟩ := p
  unfold workShiftAdminClean
  rcases pco with _ | co
  · simp only [Bool.false_eq_true, if_false]
    split_ifs with hB hC hD
    · simp_all
    · simp_all
    · simp_all
    · simp_all
  · by_cases hchron : co ≤ pci
    · simp_all
    · simp only [decide_eq_true_eq, if_neg hchron]
      split_ifs with hB hC hD
      · simp_all
      · simp_all
      · simp_all
      · simp_all

/-- C3: an admin edit proposal on an existing WorkShift is rejected — the
database, in particular the shift and the ShiftEditLog table, is left
untouched — exactly when the proposed `clock_out` is non-null and
`clock_out ≤ clock_in`, or the proposed times differ from the stored times
and `allow_admin_time_edits` is off, or the times differ,
`require_admin_edit_reason` is on and the supplied reason is empty or
whitespace-only. -/
theorem admin_edit_rejects_iff (db : DB) (idx : Nat)
    (p : AdminEditProposal) (adminUser : Nat) (old : WorkShift)
    (hold : db.shifts[idx]? = some old) :
    ((admin_edit db idx p adminUser).2 = false ↔
      (∃ co, p.clock_out = some co ∧ co ≤ p.clock_in) ∨
      ((old.clock_in ≠ p.clock_in ∨ old.clock_out ≠ p.clock_out) ∧
        db.policy.allow_admin_time_edits = false) ∨
      ((old.clock_in ≠ p.clock_in ∨ old.clock_out ≠ p.clock_out) ∧
        db.policy.require_admin_edit_reason = true ∧
        pyStrip p.edit_reason = "")) ∧
    ((admin_edit db idx p adminUser).2 = false →
      (admin_edit db idx p adminUser).1 = db) := by
  have hclean := workShiftAdminClean_none_iff db.policy old p
  unfold admin_edit
  rw [hold]
  dsimp only
  rcases hres : workShiftAdminClean db.policy old p with _ | msg
  · have hR := hclean.mp hres
    refine ⟨⟨fun h => by simp at h, fun hD => ?_⟩, fun h => by simp at h⟩
    exfalso
    rcases hD with hA | ⟨hB, hC⟩ | ⟨hB, hDreq, hE⟩
    · exact hR.1 hA
    · have h2 := (hR.2 hB).1
      rw [hC] at h2
      simp at h2
    · exact (hR.2 hB).2 hDreq hE
  · have hRn :
        ¬ ((¬ ∃ co, p.clock_out = some co ∧ co ≤ p.clock_in) ∧
          ((old.clock_in ≠ p.clock_in ∨ old.clock_out ≠ p.clock_out) →
            db.policy.allow_admin_time_edits = true ∧
            (db.policy.require_admin_edit_reason = true →
              pyStrip p.edit_reason ≠ ""))) := by
      intro hc
      have hn := hclean.mpr hc
      rw [hres] at hn
      exact Option.noConfusion hn
    refine ⟨⟨fun _ => ?_, fun _ => rfl⟩, fun _ => rfl⟩
    by_cases hA : ∃ co, p.clock_out = some co ∧ co ≤ p.clock_in
    · exact Or.inl hA
    · by_cases hB : (old.clock_in ≠ p.clock_in ∨ old.clock_out ≠ p.clock_out)
      · by_cases hC : db.policy.allow_admin_time_edits = true
        · by_cases hDreq : db.policy.require_admin_edit_reason = true
          · by_cases hE : pyStrip p.edit_reason = ""
            · exact Or.inr (Or.inr ⟨hB, hDreq, hE⟩)
            · exact absurd ⟨hA, fun _ => ⟨hC, fun _ => hE⟩⟩ hRn
          · exact absurd ⟨hA, fun _ => ⟨hC, fun hreq => absurd hreq hDreq⟩⟩ hRn
        · exact Or.inr (Or.inl ⟨hB, by simpa using hC⟩)
      · exact absurd ⟨hA, fun hB2 => absurd hB2 hB⟩ hRn

/-- C3 witness: a stored shift 100–200, proposed clock-out 300 with a
whitespace-only reason under `require_admin_edit_reason`: the edit is
rejected and the database — including the ShiftEditLog table — is
untouched. -/
theorem admin_edit_rejects_iff_witness :
    (admin_edit
        (mkDB (mkPolicy false true 0 0 true true) []
          [mkShiftRow 7 100 (some 200) Status.CLOSED] []) 0
        { clock_in := 100, clock_out := some 300, edit_reason := "   ",
          status := Status.CLOSED } 99).2 = false ∧
    (admin_edit
        (mkDB (mkPolicy false true 0 0 true true) []
          [mkShiftRow 7 100 (some 200) Status.CLOSED] []) 0
        { clock_in := 100, clock_out := some 300, edit_reason := "   ",
          status := Status.CLOSED } 99).1 =
      mkDB (mkPolicy false true 0 0 true true) []
        [mkShiftRow 7 100 (some 200) Status.CLOSED] [] := by
  have h :=
    admin_edit_rejects_iff
      (mkDB (mkPolicy false true 0 0 true true) []
        [mkShiftRow 7 100 (some 200) Status.CLOSED] []) 0
      { clock_in := 100, clock_out := some 300, edit_reason := "   ",
        status := Status.CLOSED } 99
      (mkShiftRow 7 100 (some 200) Status.CLOSED) (by rfl)
  have hrej :=
    h.1.mpr (Or.inr (Or.inr ⟨Or.inr (by decide), by decide, by decide⟩))
  exact ⟨hrej, h.2 hrej⟩

/-! ## C4: audit rows for accepted admin edits -/

/-- C4: for every accepted admin edit of an existing WorkShift that changes
at least one of the time fields, the shift is stored with status EDITED,
`edited_by` the editing admin and the trimmed reason, and exactly one
ShiftEditLog row is appended per changed field among clock-in/clock-out,
each carrying the stringified old and new values (two rows when both
changed).  An accepted edit changing neither time appends no log rows and
does not force the status to EDITED (the stored status is exactly the
proposed one). -/
theorem admin_edit_audit_per_field (db : DB) (idx : Nat)
    (p : AdminEditProposal) (adminUser : Nat) (old : WorkShift)
    (hold : db.shifts[idx]? = some old)
    (hacc : (admin_edit db idx p adminUser).2 = true) :
    ((old.clock_in ≠ p.clock_in ∨ old.clock_out ≠ p.clock_out) →
      (admin_edit db idx p adminUser).1 =
        { db with
            shifts := db.shifts.set idx
              { employee := old.employee
                scheduled_shift := old.scheduled_shift
                clock_in := p.clock_in
                clock_out := p.clock_out
                status := Status.EDITED
                edited_by := some adminUser
                edit_reason := pyStrip p.edit_reason }
            logs := db.logs ++
              ((if old.clock_in ≠ p.clock_in then
                  [{ work_shift := idx, edited_by := adminUser,
                     reason := if pyStrip p.edit_reason = "" then "Admin edit"
                       else pyStrip p.edit_reason,
                     field_name := "clock_in",
                     old_value := toString old.clock_in,
                     new_value := toString p.clock_in }]
                else []) ++
               (if old.clock_out ≠ p.clock_out then
                  [{ work_shift := idx, edited_by := adminUser,
                     reason := if pyStrip p.edit_reason = "" then "Admin edit"
                       else pyStrip p.edit_reason,
                     field_name := "clock_out",
                     old_value := strOptTime old.clock_out,
                     new_value := strOptTime p.clock_out }]
                else [])) }) ∧
    ((old.clock_in = p.clock_in ∧ old.clock_out = p.clock_out) →
      (admin_edit db idx p adminUser).1 =
        { db with
            shifts := db.shifts.set idx
              { employee := old.employee
                scheduled_shift := old.scheduled_shift
                clock_in := p.clock_in
                clock_out := p.clock_out
                status := p.status
                edited_by := old.edited_by
                edit_reason := p.edit_reason } }) := by
  unfold admin_edit at hacc ⊢
  rw [hold] at hacc ⊢
  dsimp only at hacc ⊢
  rcases hres : workShiftAdminClean db.policy old p with _ | msg
  · constructor
    · intro hB
      unfold adminSaveModel
      by_cases h1 : old.clock_in ≠ p.clock_in
      · by_cases h2 : old.clock_out ≠ p.clock_out
        · simp [h1, h2]
        · simp [h1, h2]
      · by_cases h2 : old.clock_out ≠ p.clock_out
        · simp [h1, h2]
        · rcases hB with hB | hB
          · exact absurd hB h1
          · exact absurd hB h2
    · rintro ⟨h1, h2⟩
      unfold adminSaveModel
      simp [h1, h2]
  · rw [hres] at hacc
    simp at hacc

/-- C4 witness: an accepted edit moving both clock-in (100 → 50) and
clock-out (200 → 300) with reason "fix" yields the EDITED shift and exactly
two audit rows, one per changed field, with stringified values. -/
theorem admin_edit_audit_per_field_witness :
    (admin_edit
        (mkDB (mkPolicy false true 0 0 true true) []
          [mkShiftRow 7 100 (some 200) Status.CLOSED] []) 0
        { clock_in := 50, clock_out := some 300, edit_reason := "fix",
          status := Status.CLOSED } 99).1 =
      { mkDB (mkPolicy false true 0 0 true true) []
          [mkShiftRow 7 100 (some 200) Status.CLOSED] [] with
          shifts := [{ employee := 7, scheduled_shift := none,
                       clock_in := 50, clock_out := some 300,
                       status := Status.EDITED, edited_by := some 99,
                       edit_reason := "fix" }]
          logs := [{ work_shift := 0, edited_by := 99, reason := "fix",
                     field_name := "clock_in", old_value := "100",
                     new_value := "50" },
                   { work_shift := 0, edited_by := 99, reason := "fix",
                     field_name := "clock_out", old_value := "200",
                     new_value := "300" }] } := by
  have h :=
    admin_edit_audit_per_field
      (mkDB (mkPolicy false true 0 0 true true) []
        [mkShiftRow 7 100 (some 200) Status.CLOSED] []) 0
      { clock_in := 50, clock_out := some 300, edit_reason := "fix",
        status := Status.CLOSED } 99
      (mkShiftRow 7 100 (some 200) Status.CLOSED) (by rfl) (by decide)
  have h2 := h.1 (Or.inl (by decide))
  rw [h2]
  decide

/-! ## C10: clearing clock-out through an admin edit -/

/-- C10: when the proposed `clock_out` of an admin edit is null the
chronological-order check is skipped (the clean step can never return the
chronology error, whatever the proposed clock-in); clearing a stored
clock-out counts as a time change, so the edit is rejected when
`allow_admin_time_edits` is off or when a required reason is blank; and an
accepted clearing edit stores the shift with null `clock_out` — open again
— with status EDITED, and appends exactly one clock-out audit row whose
new value is the string None. -/
theorem admin_edit_clearing_clock_out (db : DB) (idx : Nat)
    (p : AdminEditProposal) (adminUser : Nat) (old : WorkShift) (t : Int)
    (hold : db.shifts[idx]? = some old)
    (hco : p.clock_out = none)
    (holdco : old.clock_out = some t)
    (hci : p.clock_in = old.clock_in) :
    (∀ q : AdminEditProposal, q.clock_out = none →
      workShiftAdminClean db.policy old q ≠
        some "Clock out must be after clock in.") ∧
    (db.policy.allow_admin_time_edits = false →
      (admin_edit db idx p adminUser).2 = false) ∧
    ((db.policy.allow_admin_time_edits = true ∧
        db.policy.require_admin_edit_reason = true ∧
        pyStrip p.edit_reason = "") →
      (admin_edit db idx p adminUser).2 = false) ∧
    ((db.policy.allow_admin_time_edits = true ∧
        (db.policy.require_admin_edit_reason = true →
          pyStrip p.edit_reason ≠ "")) →
      (admin_edit db idx p adminUser).2 = true ∧
      (admin_edit db idx p adminUser).1.shifts = db.shifts.set idx
        { employee := old.employee
          scheduled_shift := old.scheduled_shift
          clock_in := p.clock_in
          clock_out := none
          status := Status.EDITED
          edited_by := some adminUser
          edit_reason := pyStrip p.edit_reason } ∧
      (admin_edit db idx p adminUser).1.logs = db.logs ++
        [{ work_shift := idx, edited_by := adminUser,
           reason := if pyStrip p.edit_reason = "" then "Admin edit"
             else pyStrip p.edit_reason,
           field_name := "clock_out", old_value := toString t,
           new_value := "None" }]) := by
  have hchanged : old.clock_in ≠ p.clock_in ∨ old.clock_out ≠ p.clock_out :=
    Or.inr (by rw [holdco, hco]; exact fun h => Option.noConfusion h)
  refine ⟨?_, ?_, ?_, ?_⟩
  · intro q hq
    obtain ⟨qci, qco, qer, qst⟩ := q
    simp only at hq
    subst hq
    unfold workShiftAdminClean
    simp only [Bool.false_eq_true, if_false]
    split_ifs with hB hC hD
    · intro h
      injection h with h
      exact absurd h (by decide)
    · intro h
      injection h with h
      exact absurd h (by decide)
    · intro h
      exact Option.noConfusion h
    · intro h
      exact Option.noConfusion h
  · intro hallow
    unfold admin_edit
    rw [hold]
    dsimp only
    rcases hres : workShiftAdminClean db.policy old p with _ | msg
    · have hR := (workShiftAdminClean_none_iff db.policy old p).mp hres
      have := (hR.2 hchanged).1
      rw [hallow] at this
      exact absurd this (by simp)
    · rfl
  · rintro ⟨_, hreq, hblank⟩
    unfold admin_edit
    rw [hold]
    dsimp only
    rcases hres : workShiftAdminClean db.policy old p with _ | msg
    · have hR := (workShiftAdminClean_none_iff db.policy old p).mp hres
      exact absurd hblank ((hR.2 hchanged).2 hreq)
    · rfl
  · rintro ⟨hallow, hreq⟩
    have hnoA : ¬ ∃ co, p.clock_out = some co ∧ co ≤ p.clock_in := by
      rintro ⟨co, hco2, _⟩
      rw [hco] at hco2
      exact Option.noConfusion hco2
    have hcl : workShiftAdminClean db.policy old p = none :=
      (workShiftAdminClean_none_iff db.policy old p).mpr
        ⟨hnoA, fun _ => ⟨hallow, hreq⟩⟩
    unfold admin_edit
    rw [hold]
    dsimp only
    rw [hcl]
    dsimp only
    refine ⟨rfl, ?_, ?_⟩
    · unfold adminSaveModel
      have h1 : ¬ old.clock_in ≠ p.clock_in := by rw [hci]; simp
      have h2 : old.clock_out ≠ p.clock_out := by
        rw [holdco, hco]
        exact fun h => Option.noConfusion h
      simp [h1, h2, hco, holdco]
    · unfold adminSaveModel
      have h1 : ¬ old.clock_in ≠ p.clock_in := by rw [hci]; simp
      have h2 : old.clock_out ≠ p.clock_out := by
        rw [holdco, hco]
        exact fun h => Option.noConfusion h
      simp [h1, h2, holdco, hco, strOptTime]

/-- C10 witness: a closed shift 100–200 has its clock-out cleared by an
admin with reason "reopen" under a policy allowing edits and requiring
reasons: the edit is accepted, the shift is open again with status EDITED,
and one clock-out audit row with new value None is appended. -/
theorem admin_edit_clearing_clock_out_witness :
    (admin_edit
        (mkDB (mkPolicy false true 0 0 true true) []
          [mkShiftRow 7 100 (some 200) Status.CLOSED] []) 0
        { clock_in := 100, clock_out := none, edit_reason := "reopen",
          status := Status.CLOSED } 99).2 = true ∧
    (admin_edit
        (mkDB (mkPolicy false true 0 0 true true) []
          [mkShiftRow 7 100 (some 200) Status.CLOSED] []) 0
        { clock_in := 100, clock_out := none, edit_reason := "reopen",
          status := Status.CLOSED } 99).1.shifts =
      [{ employee := 7, scheduled_shift := none, clock_in := 100,
         clock_out := none, status := Status.EDITED, edited_by := some 99,
         edit_reason := "reopen" }] ∧
    (admin_edit
        (mkDB (mkPolicy false true 0 0 true true) []
          [mkShiftRow 7 100 (some 200) Status.CLOSED] []) 0
        { clock_in := 100, clock_out := none, edit_reason := "reopen",
          status := Status.CLOSED } 99).1.logs =
      [{ work_shift := 0, edited_by := 99, reason := "reopen",
         field_name := "clock_out", old_value := "200",
         new_value := "None" }] := by
  have h :=
    (admin_edit_clearing_clock_out
        (mkDB (mkPolicy false true 0 0 true true) []
          [mkShiftRow 7 100 (some 200) Status.CLOSED] []) 0
        { clock_in := 100, clock_out := none, edit_reason := "reopen",
          status := Status.CLOSED } 99
        (mkShiftRow 7 100 (some 200) Status.CLOSED) 200
        (by rfl) (by rfl) (by rfl) (by rfl)).2.2.2
      ⟨by decide, fun _ => by decide⟩
  refine ⟨h.1, ?_, ?_⟩
  · rw [h.2.1]
    decide
  · rw [h.2.2]
    decide

/-! ## C5: clock reads in clock-in -/

/-- C5: the source of `clock_in` reads the wall clock at three separate
call sites (`timezone.localdate()`, `timezone.localtime()` for the
grace-window comparison, `timezone.now()` for the persisted timestamp)
instead of reusing a single reading.  Consequently the persisted `clock_in`
can differ from the `now` the admission decision used.  Concretely: strict
policy, grace 1/1, schedule starting at second 100 of day 0 (window
[40, 160]); the comparison reading is 100 — inside the window, so the call
succeeds — while the creation-time reading is 100000, so the persisted
clock-in timestamp 100000 lies far outside the very window the decision
checked. -/
theorem clock_in_uses_separate_clock_reads :
    (clock_in
        (mkDB (mkPolicy true true 1 1 true true)
          [{ employee := 7, date := 0, start_time := 100, end_time := 200,
             is_canceled := false }] [] []) 7
        { today := 0, now := 100, create_now := 100000 }).2.1 = true ∧
    (clock_in
        (mkDB (mkPolicy true true 1 1 true true)
          [{ employee := 7, date := 0, start_time := 100, end_time := 200,
             is_canceled := false }] [] []) 7
        { today := 0, now := 100, create_now := 100000 }).1.shifts.map
        (fun s => s.clock_in) = [100000] ∧
    (combine 0 100 - 60 ≤ (100 : Int) ∧ (100 : Int) ≤ combine 0 100 + 60) ∧
    ¬ (combine 0 100 - 60 ≤ (100000 : Int) ∧
        (100000 : Int) ≤ combine 0 100 + 60) := by
  refine ⟨by decide, by decide, by decide, by decide⟩

/-! ## C1: the at-most-one-open-shift invariant -/

theorem countP_set_le {α : Type} (l : List α) (i : Nat) (a : α)
    (p : α → Bool) (h : p a = false) :
    (l.set i a).countP p ≤ l.countP p := by
  induction l generalizing i with
  | nil => simp
  | cons x xs ih =>
    cases i with
    | zero =>
      simp only [List.set_cons_zero, List.countP_cons, h,
        Bool.false_eq_true, if_false]
      split <;> omega
    | succ n =>
      simp only [List.set_cons_succ, List.countP_cons]
      have := ih n
      omega

theorem countP_set_pred_eq {α : Type} (l : List α) (i : Nat) (a : α)
    (p : α → Bool) (h : ∀ b, l[i]? = some b → p a = p b) :
    (l.set i a).countP p = l.countP p := by
  induction l generalizing i with
  | nil => simp
  | cons x xs ih =>
    cases i with
    | zero =>
      have hx := h x (by simp)
      simp [List.countP_cons, hx]
    | succ n =>
      simp only [List.set_cons_succ, List.countP_cons]
      rw [ih n (fun b hb => h b (by simpa using hb))]

theorem openCount_eq_zero_of_no_open_shift (shifts : List WorkShift)
    (e : Nat) (h : hasOpenShift shifts e = false) :
    openCount shifts e = 0 := by
  unfold hasOpenShift at h
  unfold openCount
  rw [List.countP_eq_zero]
  intro s hs
  rw [List.any_eq_false] at h
  simpa using h s hs

theorem start_meal_break_shifts_shape (db : DB) (employee : Nat)
    (now : Int) :
    (start_meal_break db employee now).1.shifts = db.shifts := by
  unfold start_meal_break
  rcases h1 : openShiftIdx db.shifts employee with _ | idx
  · rfl
  · dsimp only
    rcases h2 : openBreakIdx db.breaks idx with _ | b
    · rfl
    · rfl

theorem clock_out_shifts_shape (db : DB) (employee : Nat) (now : Int) :
    (clock_out db employee now).1.shifts = db.shifts ∨
    ∃ idx shift, db.shifts[idx]? = some shift ∧
      (clock_out db employee now).1.shifts =
        db.shifts.set idx
          { shift with
              clock_out := some now
              status := if shift.status = Status.OPEN then Status.CLOSED
                else shift.status } := by
  unfold clock_out
  rcases h1 : openShiftIdx db.shifts employee with _ | idx
  · left; rfl
  · dsimp only
    rcases h2 : openBreakIdx db.breaks idx with _ | b
    · dsimp only
      rcases h3 : db.shifts[idx]? with _ | shift
      · left; rfl
      · right; exact ⟨idx, shift, h3, rfl⟩
    · left; rfl

theorem end_meal_break_shifts_shape (db : DB) (employee : Nat) (now : Int) :
    (end_meal_break db employee now).1.shifts = db.shifts ∨
    ∃ idx shift, db.shifts[idx]? = some shift ∧
      (end_meal_break db employee now).1.shifts =
        db.shifts.set idx { shift with status := Status.FLAGGED } := by
  unfold end_meal_break
  rcases h1 : openShiftIdx db.shifts employee with _ | idx
  · left; rfl
  · dsimp only
    rcases h2 : openBreakIdx db.breaks idx with _ | bidx
    · left; rfl
    · dsimp only
      rcases h3 : db.breaks[bidx]? with _ | brk
      · left; rfl
      · rcases h4 : db.shifts[idx]? with _ | shift
        · left; rfl
        · dsimp only
          split
          · right; exact ⟨idx, shift, h4, rfl⟩
          · left; rfl

theorem step_preserves_open_invariant (db : DB) (op : Op)
    (h : OpenInvariant db) : OpenInvariant (step db op) := by
  intro e
  cases op with
  | clockIn employee r =>
    show openCount (clock_in db employee r).1.shifts e ≤ 1
    rcases clock_in_shape db employee r with ⟨hdb, _⟩ | ⟨hopen, hcase⟩
    · rw [hdb]; exact h e
    · have hzero := openCount_eq_zero_of_no_open_shift db.shifts employee hopen
      have happ : ∀ s : WorkShift, s.employee = employee →
          s.clock_out = none →
          openCount (db.shifts ++ [s]) e ≤ 1 := by
        intro s hse hsco
        unfold openCount at *
        rw [List.countP_append]
        by_cases he : e = employee
        · subst he
          rw [hzero]
          simp [List.countP_cons, hse, hsco]
        · have : List.countP
              (fun s => s.employee == e && s.clock_out.isNone) [s] = 0 := by
            simp [List.countP_cons, hse]
            intro hc
            exact absurd hc (Ne.symm he)
          rw [this]
          have := h e
          unfold openCount at this
          omega
      rcases hcase with ⟨_, _, heq⟩ | ⟨i, sch, _, heq⟩
      · rw [heq]
        exact happ _ rfl rfl
      · rw [heq]
        exact happ _ rfl rfl
  | clockOut employee now =>
    show openCount (clock_out db employee now).1.shifts e ≤ 1
    rcases clock_out_shifts_shape db employee now with heq | ⟨idx, shift, hs, heq⟩
    · rw [heq]; exact h e
    · rw [heq]
      refine le_trans (countP_set_le _ _ _ _ (by simp)) (h e)
  | startBreak employee now =>
    show openCount (start_meal_break db employee now).1.shifts e ≤ 1
    rw [start_meal_break_shifts_shape db employee now]
    exact h e
  | endBreak employee now =>
    show openCount (end_meal_break db employee now).1.shifts e ≤ 1
    rcases end_meal_break_shifts_shape db employee now with heq | ⟨idx, shift, hs, heq⟩
    · rw [heq]; exact h e
    · rw [heq]
      unfold openCount
      rw [countP_set_pred_eq]
      · exact h e
      · intro b hb
        rw [hs] at hb
        injection hb with hb
        rw [hb]

/-- C1 (amended): the at-most-one-open-WorkShift-per-employee invariant is
preserved by every sequence of the four lifecycle operations (clockIn,
clockOut, startMealBreak, endMealBreak).  It is NOT preserved by accepted
administrative edits: an edit clearing a stored clock-out reopens a shift
without checking for another open shift of the same employee (see the
counterexample). -/
theorem lifecycle_run_preserves_open_invariant (db : DB) (ops : List Op)
    (h : OpenInvariant db) : OpenInvariant (run db ops) := by
  induction ops generalizing db with
  | nil => exact h
  | cons op ops ih => exact ih (step db op) (step_preserves_open_invariant db op h)

/-- C1 witness: running clock-in, clock-out, clock-in again for employee 7
from the empty database leaves at most one open shift for employee 7. -/
theorem lifecycle_run_preserves_open_invariant_witness :
    openCount
      (run (mkDB (mkPolicy false true 0 0 true true) [] [] [])
        [Op.clockIn 7 { today := 0, now := 100, create_now := 100 },
         Op.clockOut 7 200,
         Op.clockIn 7 { today := 0, now := 300, create_now := 300 }]).shifts
      7 ≤ 1 :=
  lifecycle_run_preserves_open_invariant
    (mkDB (mkPolicy false true 0 0 true true) [] [] [])
    [Op.clockIn 7 { today := 0, now := 100, create_now := 100 },
     Op.clockOut 7 200,
     Op.clockIn 7 { today := 0, now := 300, create_now := 300 }]
    (fun e => by simp [mkDB, openCount]) 7

/-- C1 counterexample: the claim as stated — the invariant also survives
accepted administrative edits — is false.  Employee 7 clocks in, clocks
out, clocks in again (one open shift); an admin then edits the first,
closed shift, clearing its clock-out with reason "reopen" under a policy
allowing edits.  The edit is accepted, and afterwards employee 7 has TWO
WorkShift rows with null clock-out. -/
theorem open_invariant_violated_by_admin_edit :
    (admin_edit
        (run (mkDB (mkPolicy false true 0 0 true true) [] [] [])
          [Op.clockIn 7 { today := 0, now := 100, create_now := 100 },
           Op.clockOut 7 200,
           Op.clockIn 7 { today := 0, now := 300, create_now := 300 }]) 0
        { clock_in := 100, clock_out := none, edit_reason := "reopen",
          status := Status.CLOSED } 99).2 = true ∧
    openCount
      (admin_edit
          (run (mkDB (mkPolicy false true 0 0 true true) [] [] [])
            [Op.clockIn 7 { today := 0, now := 100, create_now := 100 },
             Op.clockOut 7 200,
             Op.clockIn 7 { today := 0, now := 300, create_now := 300 }]) 0
          { clock_in := 100, clock_out := none, edit_reason := "reopen",
            status := Status.CLOSED } 99).1.shifts 7 = 2 := by
  refine ⟨by decide, by decide⟩

end Timeclock
